import Mathlib

/-!
Verification development for the mcp-duckduckresearch server.

The definitions below are a shallow embedding of the TypeScript source:
`src/browser.ts` (navigation guard, content extractor, screenshot reducer),
`src/utils.ts` (URL validator, retry wrapper), `src/search.ts` (content-type
inference) and `src/index.ts` (tool dispatcher).  External collaborators
(the DOM, the Playwright page, the Turndown converter, the zod issue
renderer) enter as explicit oracle arguments; machine behavior the source
relies on (JavaScript string/number primitives, the WHATWG URL parser)
is modelled concretely at the fidelity the theorems require.
-/

/-! ## JavaScript string primitives -/

/-- Characters matched by the JavaScript regular-expression class `\s`
(whitespace and line terminators), by code point. -/
def jsWhitespace (c : Char) : Bool :=
  c.toNat = 9 || c.toNat = 10 || c.toNat = 11 || c.toNat = 12 || c.toNat = 13 ||
  c.toNat = 32 || c.toNat = 160 || c.toNat = 5760 ||
  (8192 ≤ c.toNat && c.toNat ≤ 8202) ||
  c.toNat = 8232 || c.toNat = 8233 || c.toNat = 8239 || c.toNat = 8287 ||
  c.toNat = 12288 || c.toNat = 65279

/-- `String.prototype.trim`: remove `\s`-class characters from both ends. -/
def jsTrim (s : String) : String :=
  String.mk (((s.data.dropWhile jsWhitespace).reverse.dropWhile jsWhitespace).reverse)

/-- Number of maximal runs of non-whitespace characters in a character list.
The boolean argument records whether the scan is currently inside a run. -/
def countWords : List Char → Bool → Nat
  | [], _ => 0
  | c :: cs, inRun =>
    if jsWhitespace c then countWords cs false
    else (if inRun then 0 else 1) + countWords cs true

/-- `bodyText.trim().split(/\s+/).length` as computed by the page-validation
script in `safePageNavigation`.  JavaScript's `split` on an empty trimmed
string yields `[""]`, of length 1, which is why the count is never 0. -/
def jsWordCount (bodyText : String) : Nat :=
  let t := jsTrim bodyText
  let n := countWords t.data false
  if n = 0 then 1 else n

/-- First list is a prefix of the second (character-wise). -/
def prefixMatch : List Char → List Char → Bool
  | [], _ => true
  | _ :: _, [] => false
  | a :: as, b :: bs => a == b && prefixMatch as bs

/-- First list occurs contiguously somewhere inside the second. -/
def sublistAt : List Char → List Char → Bool
  | needle, [] => needle.isEmpty
  | needle, c :: cs => prefixMatch needle (c :: cs) || sublistAt needle cs

/-- `haystack.includes(needle)`: substring containment. -/
def containsSubstr (haystack needle : String) : Bool :=
  sublistAt needle.data haystack.data

/-- `String.prototype.toLowerCase`, at ASCII fidelity (every string the
theorems evaluate on is ASCII). -/
def jsToLower (s : String) : String :=
  String.mk (s.data.map Char.toLower)

/-! ## Navigation guard: page validation (`src/browser.ts`, `safePageNavigation`) -/

/-- The five bot-challenge selectors probed by the validation script. -/
def botProtectionSelectors : List String :=
  ["#challenge-running", "#cf-challenge-running", "#px-captcha",
   "#ddos-protection", "#waf-challenge-html"]

/-- The five suspicious-title phrases matched (case-insensitively) against the
document title. -/
def suspiciousTitlePhrases : List String :=
  ["security check", "ddos protection", "please wait", "just a moment",
   "attention required"]

/-- Result of the in-page validation script: word count, bot-protection flag,
suspicious-title flag, and the observed title. -/
structure NavigationValidation where
  wordCount : Nat
  botProtection : Bool
  suspiciousTitle : Bool
  title : String
deriving DecidableEq, Repr

/-- The `page.evaluate` validation script.  The DOM query
`document.querySelector` is abstracted as the oracle `hasSelector`. -/
def evaluatePage (hasSelector : String → Bool) (title bodyText : String) :
    NavigationValidation :=
  { wordCount := jsWordCount bodyText
    botProtection := botProtectionSelectors.any hasSelector
    suspiciousTitle :=
      suspiciousTitlePhrases.any (fun phrase => containsSubstr (jsToLower title) phrase)
    title := title }

/-- The three rejection checks applied to the validation result, in source
order: bot protection, then suspicious title, then word count below 10. -/
def validationChecks (v : NavigationValidation) : Except String Unit :=
  if v.botProtection then Except.error "Bot protection detected"
  else if v.suspiciousTitle then Except.error "Suspicious page title detected"
  else if v.wordCount < 10 then Except.error "Page contains insufficient content"
  else Except.ok ()

/-- The validation stage of `safePageNavigation`: evaluate the page, then
apply the three checks. -/
def validatePage (hasSelector : String → Bool) (title bodyText : String) :
    Except String Unit :=
  validationChecks (evaluatePage hasSelector title bodyText)

/-! ## Navigation guard: error flow (`src/browser.ts`, `safePageNavigation`) -/

/-- Inputs a single `safePageNavigation` call observes from the outside world:
an exception raised by `page.goto`/the page engine (if any), the navigation
response (`none` models a null response; otherwise status and status text),
and the document handed to validation. -/
structure NavInput where
  gotoError : Option String
  response : Option (Nat × String)
  hasSelector : String → Bool
  title : String
  bodyText : String

/-- The body of the `try` block of `safePageNavigation`: goto, null-response
check, HTTP-status check, then page validation. -/
def navTryBody (inp : NavInput) : Except String Unit :=
  match inp.gotoError with
  | some msg => Except.error msg
  | none =>
    match inp.response with
    | none => Except.error "Navigation failed: no response received"
    | some (status, statusText) =>
      if 400 ≤ status then
        Except.error ("HTTP " ++ toString status ++ ": " ++ statusText)
      else validatePage inp.hasSelector inp.title inp.bodyText

/-- The `catch` clause's test: the error message contains one of the three
validation keywords. -/
def isRecognizedValidationMessage (msg : String) : Bool :=
  containsSubstr msg "Bot protection" ||
  containsSubstr msg "Suspicious page title" ||
  containsSubstr msg "insufficient content"

/-- `safePageNavigation`: run the try body; re-throw validation rejections
verbatim, wrap every other failure into the generic navigation error. -/
def safePageNavigation (url : String) (inp : NavInput) : Except String Unit :=
  match navTryBody inp with
  | Except.ok _ => Except.ok ()
  | Except.error msg =>
    if isRecognizedValidationMessage msg then Except.error msg
    else Except.error ("Navigation to " ++ url ++ " failed")

/-! ## Retry wrapper (`src/utils.ts`, `withRetry`) -/

/-- Default maximum number of attempts (`MAX_RETRIES`). -/
def MAX_RETRIES : Nat := 3

/-- What a `withRetry` call does overall: return a value, throw the last
captured `Error`, or — when the loop never ran — throw the `undefined`
value left in the uninitialized `lastError` variable. -/
inductive RetryOutcome (ε α : Type) where
  | success (value : α)
  | failure (err : ε)
  | thrownUndefined
deriving DecidableEq, Repr

/-- Observable trace of a `withRetry` call: the outcome, how many times the
operation was invoked, and how many inter-attempt delays were inserted. -/
structure RetryResult (ε α : Type) where
  outcome : RetryOutcome ε α
  calls : Nat
  delays : Nat
deriving DecidableEq, Repr

/-- The `for (let i = 0; i < retries; i++)` loop of `withRetry`, recursing on
the number of remaining iterations; `idx` is the 0-based index of the next
invocation of the operation oracle `op`.  On a failure with at least one
iteration left (`i < retries - 1` in the source) a delay is inserted. -/
def withRetryLoop (op : Nat → Except ε α) : Nat → Nat → RetryResult ε α
  | 0, _ => { outcome := RetryOutcome.thrownUndefined, calls := 0, delays := 0 }
  | 1, idx =>
    match op idx with
    | Except.ok a => { outcome := RetryOutcome.success a, calls := 1, delays := 0 }
    | Except.error e => { outcome := RetryOutcome.failure e, calls := 1, delays := 0 }
  | (rem + 2), idx =>
    match op idx with
    | Except.ok a => { outcome := RetryOutcome.success a, calls := 1, delays := 0 }
    | Except.error _ =>
      let rest := withRetryLoop op (rem + 1) (idx + 1)
      { outcome := rest.outcome, calls := rest.calls + 1, delays := rest.delays + 1 }

/-- `withRetry(operation, retries)`.  `retries` is an `Int` because the
JavaScript parameter is an arbitrary number; for `retries ≤ 0` the loop
body never runs and the final `throw lastError` throws `undefined`. -/
def withRetry (op : Nat → Except ε α) (retries : Int := (MAX_RETRIES : Int)) :
    RetryResult ε α :=
  withRetryLoop op retries.toNat 0

/-! ## URL parser model (`new URL`, used by `isValidUrl` and zod's `.url()`)

The source delegates URL parsing to the JavaScript `URL` constructor.  The
definitions below model the WHATWG basic URL parser at the fidelity the
theorems need: input trimming, scheme parsing and ASCII lowercasing,
special-scheme slash handling, authority/host extraction, and rejection of
schemeless or empty-host inputs. -/

/-- Record of the parsed-URL fields the source reads. -/
structure UrlRec where
  protocol : String
  hostname : String
  pathname : String
deriving DecidableEq, Repr

/-- Characters allowed in a scheme after its first letter. -/
def schemeRestChar (c : Char) : Bool :=
  c.isAlphanum || c == '+' || c == '-' || c == '.'

/-- Scan the remainder of a scheme up to the terminating colon, accumulating
the scheme characters in reverse. -/
def splitScheme : List Char → List Char → Option (List Char × List Char)
  | acc, c :: cs =>
    if c == ':' then some (acc.reverse, cs)
    else if schemeRestChar c then splitScheme (c :: acc) cs
    else none
  | _, [] => none

/-- Parse a leading scheme: an ASCII letter, then scheme characters, then a
colon.  Without one (and with no base URL) parsing fails. -/
def parseScheme : List Char → Option (List Char × List Char)
  | [] => none
  | c :: cs => if c.isAlpha then splitScheme [c] cs else none

/-- The six WHATWG special schemes. -/
def specialSchemes : List String := ["ftp", "file", "http", "https", "ws", "wss"]

/-- Code points that may not appear in a parsed host. -/
def forbiddenHostChar (c : Char) : Bool :=
  c.toNat ≤ 32 || c == '#' || c == '/' || c == ':' || c == '<' || c == '>' ||
  c == '?' || c == '@' || c == '[' || c == '\\' || c == ']' || c == '^' ||
  c == '|' || c == '%'

/-- Characters that terminate the authority component. -/
def isAuthorityEnd (c : Char) : Bool := c == '/' || c == '\\' || c == '?' || c == '#'

/-- Extract the host from an authority: the part after the last userinfo
separator, with any port suffix removed. -/
def hostFromAuthority (auth : List Char) : List Char :=
  ((auth.reverse.takeWhile (fun c => c != '@')).reverse).takeWhile (fun c => c != ':')

/-- Characters that terminate a path (query or fragment start). -/
def pathEnd (c : Char) : Bool := c == '?' || c == '#'

/-- The URL constructor, no base: returns the parsed record or `none` where
`new URL` would throw.  The scheme is lowercased; for special schemes any
run of slashes or backslashes after the colon is accepted and a non-empty
host is required (except `file`). -/
def jsParseUrl (s : String) : Option UrlRec :=
  let trimmed :=
    ((s.data.dropWhile (fun c => c.toNat ≤ 32)).reverse.dropWhile
      (fun c => c.toNat ≤ 32)).reverse
  let cleaned := trimmed.filter (fun c => c.toNat != 9 && c.toNat != 10 && c.toNat != 13)
  match parseScheme cleaned with
  | none => none
  | some (schemeChars, rest) =>
    let scheme := String.mk (schemeChars.map Char.toLower)
    if scheme ∈ specialSchemes then
      let afterSlashes := rest.dropWhile (fun c => c == '/' || c == '\\')
      let auth := afterSlashes.takeWhile (fun c => !isAuthorityEnd c)
      let afterAuth := afterSlashes.dropWhile (fun c => !isAuthorityEnd c)
      let host := (hostFromAuthority auth).map Char.toLower
      if host.isEmpty && scheme != "file" then none
      else if host.any forbiddenHostChar then none
      else
        let pathChars :=
          (afterAuth.takeWhile (fun c => !pathEnd c)).map
            (fun c => if c == '\\' then '/' else c)
        some { protocol := scheme ++ ":", hostname := String.mk host,
               pathname := if pathChars.isEmpty then "/" else String.mk pathChars }
    else
      match rest with
      | '/' :: '/' :: rest2 =>
        let auth := rest2.takeWhile (fun c => c != '/' && !pathEnd c)
        let afterAuth := rest2.dropWhile (fun c => c != '/' && !pathEnd c)
        let host := (hostFromAuthority auth).map Char.toLower
        if host.any forbiddenHostChar then none
        else some { protocol := scheme ++ ":", hostname := String.mk host,
                    pathname := String.mk (afterAuth.takeWhile (fun c => !pathEnd c)) }
      | _ =>
        some { protocol := scheme ++ ":", hostname := "",
               pathname := String.mk (rest.takeWhile (fun c => !pathEnd c)) }

/-- `isValidUrl` from `src/utils.ts`: parse with `new URL` and accept exactly
the `http:` and `https:` protocols; a parse failure yields `false`. -/
def isValidUrl (urlString : String) : Bool :=
  match jsParseUrl urlString with
  | some url => url.protocol == "http:" || url.protocol == "https:"
  | none => false

/-! ## Content-type inference (`src/search.ts`, `detectContentType`) -/

/-- `detectContentType`: classify a search result by substring tests on the
whole lowercased URL string. -/
def detectContentType (url : String) : String :=
  let u := jsToLower url
  if containsSubstr u "docs." || containsSubstr u "/docs/" ||
      containsSubstr u "/documentation/" then "documentation"
  else if containsSubstr u "github.com" || containsSubstr u "stackoverflow.com" then
    "documentation"
  else if containsSubstr u "twitter.com" || containsSubstr u "facebook.com" ||
      containsSubstr u "linkedin.com" then "social"
  else "article"

/-- Content-type rule exactly as the claim words it, for refinement
comparison with `detectContentType`: the tests apply to the URL's
hostname/path, and github.com / stackoverflow.com are *equality* tests on
the hostname.  `none` when the URL does not parse. -/
def claimContentTypeRule (url : String) : Option String :=
  match jsParseUrl url with
  | none => none
  | some u =>
    let hp := u.hostname ++ u.pathname
    if containsSubstr hp "docs." || containsSubstr hp "/docs/" ||
        containsSubstr hp "/documentation/" ||
        u.hostname = "github.com" || u.hostname = "stackoverflow.com" then
      some "documentation"
    else if containsSubstr hp "twitter.com" || containsSubstr hp "facebook.com" ||
        containsSubstr hp "linkedin.com" then some "social"
    else some "article"

/-! ## Content extractor (`src/browser.ts`, `extractContentAsMarkdown`)

The selection of the HTML fragment happens inside `page.evaluate` against the
live DOM, so the fragment is an input here; the Turndown converter is an
oracle that either produces Markdown or throws. -/

/-- Collapse runs of three or more newlines to exactly two
(`replace(/\n\x7b3,\x7d/g, "\n\n")`); `pending` counts newlines seen but not
yet emitted. -/
def collapseNewlinesAux : List Char → Nat → List Char
  | [], pending => List.replicate (min pending 2) '\n'
  | c :: cs, pending =>
    if c == '\n' then collapseNewlinesAux cs (pending + 1)
    else List.replicate (min pending 2) '\n' ++ c :: collapseNewlinesAux cs 0

/-- String form of the newline-collapsing pass. -/
def collapseNewlines (s : String) : String := String.mk (collapseNewlinesAux s.data 0)

/-- Per-line passes: a line that is exactly a bare bullet marker is emptied,
and a non-empty all-whitespace line is emptied. -/
def stripJunkLines (s : String) : String :=
  String.intercalate "\n" ((s.splitOn "\n").map (fun l =>
    if l == "- " then ""
    else if !l.isEmpty && l.data.all jsWhitespace then ""
    else l))

/-- The post-processing chain applied to the converter's output: collapse
newlines, strip junk lines, trim. -/
def postprocessMarkdown (markdown : String) : String :=
  jsTrim (stripJunkLines (collapseNewlines markdown))

/-- `extractContentAsMarkdown` after DOM selection: empty fragment yields
the empty string; otherwise convert, post-process, and on a converter
exception return the raw HTML unchanged. -/
def extractContentAsMarkdown (convert : String → Except String String)
    (html : String) : String :=
  if html == "" then ""
  else
    match convert html with
    | Except.ok markdown => postprocessMarkdown markdown
    | Except.error _ => html

/-! ## Screenshot reducer (`src/browser.ts`, `takeScreenshotWithSizeLimit`) -/

/-- The 5 MiB ceiling (`5 * 1024 * 1024`). -/
def MAX_SCREENSHOT_BYTES : Nat := 5 * 1024 * 1024

/-- One capture returned by `page.screenshot`: its byte length and its
base64 rendering (`buffer.toString("base64")`), kept opaque. -/
structure Shot where
  size : Nat
  b64 : String
deriving DecidableEq, Repr

/-- `Math.round (num / den)` for non-negative values: round half up.  The
quantities the reducer rounds (`1600 * 0.75 ^ k` and `900 * 0.75 ^ k`,
`k ≤ 3`) are exact in binary floating point, so exact rational rounding
reproduces the JavaScript computation. -/
def jsRound (num den : Nat) : Nat := (2 * num + den) / (2 * den)

/-- Width for shrink attempt `k`: `Math.round(1600 * 0.75 ** k)`.  The
clamping statement for the width sits inside a comment in the source
(`// Ensure dimensions stay within bounds  newWidth = Math.max(...)`), so
the width is *not* clamped. -/
def shrinkWidth (k : Nat) : Nat := jsRound (1600 * 3 ^ k) (4 ^ k)

/-- Height for shrink attempt `k`: `Math.round(900 * 0.75 ** k)`, clamped to
`[800, 1920]` (`Math.max(MIN_DIMENSION, Math.min(MAX_DIMENSION, newHeight))`). -/
def shrinkHeight (k : Nat) : Nat := max 800 (min 1920 (jsRound (900 * 3 ^ k) (4 ^ k)))

/-- The shrink loop (`while (screenshot.length > 5*1024*1024 && attempts <
MAX_ATTEMPTS)`), recursing on remaining fuel.  `idx` indexes the capture
oracle `shots`; the returned triple is the final capture, the next capture
index, and the accumulated viewport-set trace. -/
def screenshotLoop (shots : Nat → Shot) :
    Nat → Nat → Nat → Shot → List (Nat × Nat) → Shot × Nat × List (Nat × Nat)
  | 0, _, idx, cur, sets => (cur, idx, sets)
  | fuel + 1, attempts, idx, cur, sets =>
    if MAX_SCREENSHOT_BYTES < cur.size ∧ attempts < 3 then
      screenshotLoop shots fuel (attempts + 1) (idx + 1) (shots idx)
        (sets ++ [(shrinkWidth (attempts + 1), shrinkHeight (attempts + 1))])
    else (cur, idx, sets)

deriving instance DecidableEq for Except

/-- Observable trace of a `takeScreenshotWithSizeLimit` call: the returned
base64 string or the thrown error, every `setViewportSize` argument in
order, and the number of captures taken. -/
structure ScreenshotTrace where
  result : Except String String
  viewportSets : List (Nat × Nat)
  captures : Nat
deriving DecidableEq, Repr

/-- `takeScreenshotWithSizeLimit`: set the 1600×900 viewport, capture, run
the shrink loop, and if the result is still oversized force the 800×800
minimum viewport for one final capture, failing if that is oversized too. -/
def takeScreenshotWithSizeLimit (shots : Nat → Shot) : ScreenshotTrace :=
  match screenshotLoop shots 3 0 1 (shots 0) [(1600, 900)] with
  | (afterLoop, idx, sets) =>
    if MAX_SCREENSHOT_BYTES < afterLoop.size then
      let last := shots idx
      if MAX_SCREENSHOT_BYTES < last.size then
        { result :=
            Except.error "Failed to reduce screenshot to under 5MB even with minimum settings"
          viewportSets := sets ++ [(800, 800)], captures := idx + 1 }
      else
        { result := Except.ok last.b64
          viewportSets := sets ++ [(800, 800)], captures := idx + 1 }
    else { result := Except.ok afterLoop.b64, viewportSets := sets, captures := idx }

/-! ## Tool dispatcher (`src/index.ts`, the call-tool request handler)

Raw request arguments are modelled as JSON values; the two zod schemas
(`SearchArgsSchema`, `VisitPageArgsSchema`) become validation functions
returning either the typed parameter set or a validation issue.  The exact
text a `ZodError` renders to is external, so the handler takes a renderer
oracle for it; the error *codes* and fixed message parts are from source. -/

/-- JSON value, as far as the tool schemas inspect one. -/
inductive JsonVal where
  | null
  | bool (b : Bool)
  | num (n : Int)
  | str (s : String)
  | obj (fields : List (String × JsonVal))

/-- Look up a key in a JSON object's field list. -/
def jsonLookup (fields : List (String × JsonVal)) (key : String) : Option JsonVal :=
  match fields.find? (fun kv => kv.fst == key) with
  | some kv => some kv.snd
  | none => none

/-- `SafeSearchType` from duck-duck-scrape (numeric enum: STRICT = 0,
MODERATE = -1, OFF = -2). -/
inductive SafeSearchType where
  | strict
  | moderate
  | off
deriving DecidableEq, Repr

/-- Search options after zod validation, with the schema defaults
(region "zh-cn", safeSearch MODERATE, numResults 50) filled in. -/
structure SearchOptionsParsed where
  region : String
  safeSearch : SafeSearchType
  numResults : Int
deriving DecidableEq, Repr

/-- Search arguments after zod validation: required query, optional options. -/
structure SearchArgsParsed where
  query : String
  options : Option SearchOptionsParsed
deriving DecidableEq, Repr

/-- A zod validation failure, identified by the path of the offending
(or missing) field. -/
inductive ZodIssue where
  | invalidType (path : List String)
deriving DecidableEq, Repr

/-- `SearchArgsSchema.parse`: requires an object with a string `query`;
`options`, when present, must be an object whose fields have the right
types, with defaults applied where absent. -/
def parseSearchArgs (args : Option JsonVal) : Except ZodIssue SearchArgsParsed :=
  match args with
  | some (JsonVal.obj fields) =>
    match jsonLookup fields "query" with
    | some (JsonVal.str q) =>
      match jsonLookup fields "options" with
      | none => Except.ok { query := q, options := none }
      | some (JsonVal.obj ofields) => do
        let region ←
          match jsonLookup ofields "region" with
          | some (JsonVal.str r) => Except.ok r
          | none => Except.ok "zh-cn"
          | some _ => Except.error (ZodIssue.invalidType ["options", "region"])
        let ss ←
          match jsonLookup ofields "safeSearch" with
          | some (JsonVal.num n) =>
            if n = 0 then Except.ok SafeSearchType.strict
            else if n = -1 then Except.ok SafeSearchType.moderate
            else if n = -2 then Except.ok SafeSearchType.off
            else Except.error (ZodIssue.invalidType ["options", "safeSearch"])
          | none => Except.ok SafeSearchType.moderate
          | some _ => Except.error (ZodIssue.invalidType ["options", "safeSearch"])
        let nr ←
          match jsonLookup ofields "numResults" with
          | some (JsonVal.num n) => Except.ok n
          | none => Except.ok (50 : Int)
          | some _ => Except.error (ZodIssue.invalidType ["options", "numResults"])
        Except.ok { query := q,
                    options := some { region := region, safeSearch := ss, numResults := nr } }
      | some _ => Except.error (ZodIssue.invalidType ["options"])
    | _ => Except.error (ZodIssue.invalidType ["query"])
  | _ => Except.error (ZodIssue.invalidType [])

/-- Visit-page arguments after zod validation. -/
structure VisitPageArgsParsed where
  url : String
  takeScreenshotFlag : Option Bool
deriving DecidableEq, Repr

/-- `VisitPageArgsSchema.parse`: requires a string `url` accepted by the URL
parser (zod's `.url()` check), plus an optional boolean `takeScreenshot`. -/
def parseVisitPageArgs (args : Option JsonVal) : Except ZodIssue VisitPageArgsParsed :=
  match args with
  | some (JsonVal.obj fields) =>
    match jsonLookup fields "url" with
    | some (JsonVal.str u) =>
      if (jsParseUrl u).isSome then
        match jsonLookup fields "takeScreenshot" with
        | none => Except.ok { url := u, takeScreenshotFlag := none }
        | some (JsonVal.bool b) => Except.ok { url := u, takeScreenshotFlag := some b }
        | some _ => Except.error (ZodIssue.invalidType ["takeScreenshot"])
      else Except.error (ZodIssue.invalidType ["url"])
    | _ => Except.error (ZodIssue.invalidType ["url"])
  | _ => Except.error (ZodIssue.invalidType [])

/-- The protocol error classes the handler uses (`ErrorCode` of the MCP SDK:
InvalidRequest -32600, MethodNotFound -32601, InvalidParams -32602,
InternalError -32603). -/
inductive McpErrorCode where
  | invalidRequest
  | methodNotFound
  | invalidParams
  | internalError
deriving DecidableEq, Repr

/-- A protocol-level error: class plus message. -/
structure McpErr where
  code : McpErrorCode
  message : String
deriving DecidableEq, Repr

/-- The component invocation the handler commits to once validation has
passed; producing one of these is the first point at which browser or
search work is attempted. -/
inductive Dispatch where
  | search (args : SearchArgsParsed)
  | visitPage (args : VisitPageArgsParsed)
  | takeScreenshot
deriving DecidableEq, Repr

/-- An incoming call-tool request: optional tool name, optional raw
arguments. -/
structure CallRequest where
  name : Option String
  arguments : Option JsonVal

/-- The three registered tool names, in registration order. -/
def registeredToolNames : List String :=
  ["search_duckduckgo", "visit_page", "take_screenshot"]

/-- The call-tool handler up to its first component invocation.  A missing
or empty name (`!request?.params?.name`) is rejected as InvalidRequest; an
unknown name throws MethodNotFound, which the catch clause re-throws
unchanged (`instanceof McpError`); a zod failure is not an `McpError`, so
the catch clause wraps it as InternalError with the
"Tool execution failed: " prefix. -/
def handleCallTool (renderZod : ZodIssue → String) (req : CallRequest) :
    Except McpErr Dispatch :=
  match req.name with
  | none =>
    Except.error { code := McpErrorCode.invalidRequest, message := "Missing request parameters" }
  | some name =>
    if name == "" then
      Except.error { code := McpErrorCode.invalidRequest, message := "Missing request parameters" }
    else if name == "search_duckduckgo" then
      match parseSearchArgs req.arguments with
      | Except.ok args => Except.ok (Dispatch.search args)
      | Except.error issue =>
        Except.error { code := McpErrorCode.internalError,
                       message := "Tool execution failed: " ++ renderZod issue }
    else if name == "visit_page" then
      match parseVisitPageArgs req.arguments with
      | Except.ok args => Except.ok (Dispatch.visitPage args)
      | Except.error issue =>
        Except.error { code := McpErrorCode.internalError,
                       message := "Tool execution failed: " ++ renderZod issue }
    else if name == "take_screenshot" then Except.ok Dispatch.takeScreenshot
    else
      Except.error { code := McpErrorCode.methodNotFound, message := "Unknown tool: " ++ name }

/-- Error class of a handler result, if it is an error. -/
def resultCode : Except McpErr Dispatch → Option McpErrorCode
  | Except.error e => some e.code
  | Except.ok _ => none

/-! ## Helper lemmas for the retry loop -/

/-- A successful invocation stops the loop immediately with one call and no
delay. -/
theorem withRetryLoop_ok (op : Nat → Except ε α) (rem idx : Nat) (a : α)
    (h : op idx = Except.ok a) :
    withRetryLoop op (rem + 1) idx =
      { outcome := RetryOutcome.success a, calls := 1, delays := 0 } := by
  cases rem with
  | zero => simp [withRetryLoop, h]
  | succ r => simp [withRetryLoop, h]

/-- If the first `k` invocations starting at `idx` fail and the next one
succeeds, the loop (with enough iterations remaining) makes `k + 1` calls,
inserts `k` delays, and returns the successful value. -/
theorem withRetryLoop_success (op : Nat → Except ε α) :
    ∀ (k idx rem : Nat), k < rem →
      (∀ j, j < k → ∃ e, op (idx + j) = Except.error e) →
      ∀ a, op (idx + k) = Except.ok a →
      withRetryLoop op rem idx =
        { outcome := RetryOutcome.success a, calls := k + 1, delays := k } := by
  intro k
  induction k with
  | zero =>
    intro idx rem hrem _ a hok
    match rem, hrem with
    | r + 1, _ =>
      simpa using withRetryLoop_ok op r idx a (by simpa using hok)
  | succ k ih =>
    intro idx rem hrem hfail a hok
    match rem, hrem with
    | 1, hrem => omega
    | r + 2, _ =>
      obtain ⟨e, he⟩ := hfail 0 (Nat.succ_pos k)
      simp only [Nat.add_zero] at he
      have step :
          withRetryLoop op (r + 2) idx =
            { outcome := (withRetryLoop op (r + 1) (idx + 1)).outcome,
              calls := (withRetryLoop op (r + 1) (idx + 1)).calls + 1,
              delays := (withRetryLoop op (r + 1) (idx + 1)).delays + 1 } := by
        simp [withRetryLoop, he]
      have hshift : ∀ j, j < k → ∃ e2, op (idx + 1 + j) = Except.error e2 := by
        intro j hj
        obtain ⟨e2, he2⟩ := hfail (j + 1) (by omega)
        exact ⟨e2, by rw [show idx + 1 + j = idx + (j + 1) from by omega]; exact he2⟩
      have hok2 : op (idx + 1 + k) = Except.ok a := by
        rw [show idx + 1 + k = idx + (k + 1) from by omega]; exact hok
      rw [step, ih (idx + 1) (r + 1) (by omega) hshift a hok2]

/-- If every invocation the loop can reach fails, the loop makes exactly
`rem` calls, inserts `rem - 1` delays, and ends with the last error. -/
theorem withRetryLoop_allfail (op : Nat → Except ε α) :
    ∀ (rem idx : Nat) (e : ε), 1 ≤ rem →
      (∀ j, j + 1 < rem → ∃ e2, op (idx + j) = Except.error e2) →
      op (idx + (rem - 1)) = Except.error e →
      withRetryLoop op rem idx =
        { outcome := RetryOutcome.failure e, calls := rem, delays := rem - 1 } := by
  intro rem
  induction rem with
  | zero => intro idx e h1; omega
  | succ r ih =>
    intro idx e _ hfail hlast
    cases r with
    | zero =>
      simp only [Nat.sub_self, Nat.add_zero] at hlast
      simp [withRetryLoop, hlast]
    | succ r2 =>
      obtain ⟨e0, he0⟩ := hfail 0 (by omega)
      simp only [Nat.add_zero] at he0
      have step :
          withRetryLoop op (r2 + 2) idx =
            { outcome := (withRetryLoop op (r2 + 1) (idx + 1)).outcome,
              calls := (withRetryLoop op (r2 + 1) (idx + 1)).calls + 1,
              delays := (withRetryLoop op (r2 + 1) (idx + 1)).delays + 1 } := by
        simp [withRetryLoop, he0]
      have hshift : ∀ j, j + 1 < r2 + 1 → ∃ e2, op (idx + 1 + j) = Except.error e2 := by
        intro j hj
        obtain ⟨e2, he2⟩ := hfail (j + 1) (by omega)
        exact ⟨e2, by rw [show idx + 1 + j = idx + (j + 1) from by omega]; exact he2⟩
      have hlast2 : op (idx + 1 + (r2 + 1 - 1)) = Except.error e := by
        rw [show idx + 1 + (r2 + 1 - 1) = idx + (r2 + 2 - 1) from by omega]; exact hlast
      rw [step, ih (idx + 1) e (by omega) hshift hlast2]
      rfl

/-- Dropping the `Int` wrapper: `withRetry` with a natural attempt count runs
the loop that many times. -/
theorem withRetry_natCast (op : Nat → Except ε α) (N : Nat) :
    withRetry op (N : Int) = withRetryLoop op N 0 := by
  simp [withRetry]

/-! ## Claim theorems -/

/-- Case analysis of the three validation checks on an arbitrary validation
record: acceptance characterization and the rejection priority order. -/
theorem validationChecks_cases (v : NavigationValidation) :
    (validationChecks v = Except.ok () ↔
      (v.botProtection = false ∧ v.suspiciousTitle = false ∧ 10 ≤ v.wordCount)) ∧
    (v.botProtection = true →
      validationChecks v = Except.error "Bot protection detected") ∧
    (v.botProtection = false → v.suspiciousTitle = true →
      validationChecks v = Except.error "Suspicious page title detected") ∧
    (v.botProtection = false → v.suspiciousTitle = false → v.wordCount < 10 →
      validationChecks v = Except.error "Page contains insufficient content") := by
  obtain ⟨w, b, t, ti⟩ := v
  cases b <;> cases t <;> by_cases hw : w < 10 <;>
    simp [validationChecks, hw] <;> omega

/-- Claim C1: navigation validation succeeds iff no bot-challenge selector
matches, the title is not suspicious, and the body word count is at least 10
(the boundary of exactly 10 is accepted); the checks apply in the order
bot protection, suspicious title, word count, with the messages
"Bot protection detected", "Suspicious page title detected", and
"Page contains insufficient content"; a matching challenge selector wins
regardless of title or word count. -/
theorem validatePage_accept_iff_and_order (hs : String → Bool) (title body : String) :
    (validatePage hs title body = Except.ok () ↔
      (botProtectionSelectors.any hs = false ∧
       suspiciousTitlePhrases.any (fun p => containsSubstr (jsToLower title) p) = false ∧
       10 ≤ jsWordCount body)) ∧
    (botProtectionSelectors.any hs = true →
      validatePage hs title body = Except.error "Bot protection detected") ∧
    (botProtectionSelectors.any hs = false →
      suspiciousTitlePhrases.any (fun p => containsSubstr (jsToLower title) p) = true →
      validatePage hs title body = Except.error "Suspicious page title detected") ∧
    (botProtectionSelectors.any hs = false →
      suspiciousTitlePhrases.any (fun p => containsSubstr (jsToLower title) p) = false →
      jsWordCount body < 10 →
      validatePage hs title body = Except.error "Page contains insufficient content") := by
  have h := validationChecks_cases (evaluatePage hs title body)
  simpa [validatePage, evaluatePage] using h

/-- Witness for C1: a ten-word page with no bot markers and a clean title is
accepted (boundary case), and a page matching a challenge selector is
rejected as bot protection even with a one-word body. -/
theorem validatePage_accept_iff_and_order_witness :
    validatePage (fun _ => false) "Welcome"
      "one two three four five six seven eight nine ten" = Except.ok () ∧
    validatePage (fun s => s == "#px-captcha") "Welcome" "hi" =
      Except.error "Bot protection detected" :=
  ⟨(validatePage_accept_iff_and_order _ _ _).1.mpr (by decide),
   (validatePage_accept_iff_and_order _ _ _).2.1 (by decide)⟩

/-- Claim C9: when the selected HTML fragment is non-empty and the
Markdown converter throws, `extractContentAsMarkdown` returns the raw
unconverted HTML instead of propagating the error. -/
theorem extractContentAsMarkdown_conversion_fallback
    (convert : String → Except String String) (html err : String)
    (hne : html ≠ "") (herr : convert html = Except.error err) :
    extractContentAsMarkdown convert html = html := by
  have hb : (html == "") = false := beq_eq_false_iff_ne.mpr hne
  simp [extractContentAsMarkdown, hb, herr]

/-- Witness for C9: a throwing converter on a concrete fragment. -/
theorem extractContentAsMarkdown_conversion_fallback_witness :
    extractContentAsMarkdown (fun _ => Except.error "convert failed") "<p>x</p>" =
      "<p>x</p>" :=
  extractContentAsMarkdown_conversion_fallback _ "<p>x</p>" "convert failed"
    (by decide) rfl

/-- Claim C3: an operation that first succeeds on its k-th invocation
(k ≤ N) is invoked exactly k times, with the k-th result returned and k - 1
delays inserted; an operation failing on all N invocations is invoked
exactly N times, the N-th error is the one thrown, and N - 1 delays are
inserted (none after the final attempt). -/
theorem withRetry_invocation_counts (op : Nat → Except ε α) (N : Nat) (hN : 1 ≤ N) :
    (∀ (k : Nat) (a : α), 1 ≤ k → k ≤ N →
      (∀ j, j < k - 1 → ∃ e, op j = Except.error e) →
      op (k - 1) = Except.ok a →
      withRetry op (N : Int) =
        { outcome := RetryOutcome.success a, calls := k, delays := k - 1 }) ∧
    (∀ e : ε,
      (∀ j, j + 1 < N → ∃ e2, op j = Except.error e2) →
      op (N - 1) = Except.error e →
      withRetry op (N : Int) =
        { outcome := RetryOutcome.failure e, calls := N, delays := N - 1 }) := by
  constructor
  · intro k a hk1 hkN hfail hok
    rw [withRetry_natCast]
    have h := withRetryLoop_success op (k - 1) 0 N (by omega)
      (fun j hj => by simpa using hfail j hj) a (by simpa using hok)
    rw [h]
    have : k - 1 + 1 = k := by omega
    rw [this]
  · intro e hfail hlast
    rw [withRetry_natCast]
    exact withRetryLoop_allfail op N 0 e hN
      (fun j hj => by simpa using hfail j hj) (by simpa using hlast)

/-- Witness for C3: with three allowed attempts, an operation failing once
then succeeding is called twice, returns the second result, and one delay
is inserted. -/
theorem withRetry_invocation_counts_witness :
    withRetry (fun j => if j = 0 then (Except.error "boom" : Except String Nat)
      else Except.ok 7) (3 : Int) =
      { outcome := RetryOutcome.success 7, calls := 2, delays := 1 } :=
  (withRetry_invocation_counts _ 3 (by omega)).1 2 7 (by omega) (by omega)
    (fun j hj => ⟨"boom", by
      have hj0 : j = 0 := by omega
      subst hj0; rfl⟩)
    rfl

/-- Claim C10: with a non-positive attempt count the loop body never runs,
the operation is never invoked, and the final `throw lastError` throws the
undefined value; with an attempt count N ≥ 1 and an always-failing
operation, the thrown value is the error captured on the last (N-th)
attempt. -/
theorem withRetry_nonpositive_throws_undefined (op : Nat → Except ε α) (retries : Int) :
    (retries ≤ 0 →
      withRetry op retries =
        { outcome := RetryOutcome.thrownUndefined, calls := 0, delays := 0 }) ∧
    (∀ (N : Nat) (e : ε), retries = (N : Int) → 1 ≤ N →
      (∀ j, j + 1 < N → ∃ e2, op j = Except.error e2) →
      op (N - 1) = Except.error e →
      (withRetry op retries).outcome = RetryOutcome.failure e ∧
      (withRetry op retries).calls = N) := by
  constructor
  · intro hle
    have h0 : retries.toNat = 0 := Int.toNat_of_nonpos hle
    simp [withRetry, h0, withRetryLoop]
  · intro N e hret hN hfail hlast
    subst hret
    rw [withRetry_natCast]
    rw [withRetryLoop_allfail op N 0 e hN
      (fun j hj => by simpa using hfail j hj) (by simpa using hlast)]
    exact ⟨rfl, rfl⟩

/-- Witness for C10: retries = -2 throws the undefined value with zero
invocations. -/
theorem withRetry_nonpositive_throws_undefined_witness :
    withRetry (fun _ => (Except.error "boom" : Except String Nat)) (-2 : Int) =
      { outcome := RetryOutcome.thrownUndefined, calls := 0, delays := 0 } :=
  (withRetry_nonpositive_throws_undefined _ (-2 : Int)).1 (by omega)

/-- Claim C4 counterexample: the string "HTTP://example.com" starts with
neither "http://" nor "https://", yet `isValidUrl` returns true, because
the URL constructor lowercases the scheme before the protocol comparison.
(The claim asserts every such string yields false.) -/
theorem isValidUrl_uppercase_scheme_counterexample :
    isValidUrl "HTTP://example.com" = true ∧
    prefixMatch "http://".data "HTTP://example.com".data = false ∧
    prefixMatch "https://".data "HTTP://example.com".data = false := by
  refine ⟨by decide, by decide, by decide⟩

/-- Claim C4 amended: `isValidUrl` returns true iff the string parses as an
absolute URL whose scheme, after the parser's ASCII lowercasing, is exactly
http or https; parse failures and other schemes yield false
("https://example.com" → true, "ftp://x" → false, "" → false).  Strings not
starting with "http://" or "https://" may still be accepted when they
differ only in scheme case or slash spelling. -/
theorem isValidUrl_iff_parsed_scheme (s : String) :
    (isValidUrl s = true ↔
      ∃ u, jsParseUrl s = some u ∧ (u.protocol = "http:" ∨ u.protocol = "https:")) ∧
    isValidUrl "https://example.com" = true ∧
    isValidUrl "ftp://x" = false ∧
    isValidUrl "" = false := by
  refine ⟨?_, by decide, by decide, by decide⟩
  unfold isValidUrl
  cases h : jsParseUrl s with
  | none => simp
  | some u => simp [Bool.or_eq_true, beq_iff_eq]

/-- Witness for C4 (amended) at a concrete accepted URL. -/
theorem isValidUrl_iff_parsed_scheme_witness :
    isValidUrl "https://example.com" = true :=
  (isValidUrl_iff_parsed_scheme "https://example.com").2.1

/-- First `detectContentType` test: documentation-path markers in the
lowercased URL string. -/
def docsSubstrCond (url : String) : Bool :=
  containsSubstr (jsToLower url) "docs." || containsSubstr (jsToLower url) "/docs/" ||
  containsSubstr (jsToLower url) "/documentation/"

/-- Second `detectContentType` test: github.com / stackoverflow.com as
substrings of the lowercased URL string. -/
def hubSubstrCond (url : String) : Bool :=
  containsSubstr (jsToLower url) "github.com" ||
  containsSubstr (jsToLower url) "stackoverflow.com"

/-- Third `detectContentType` test: social-network hosts as substrings of
the lowercased URL string. -/
def socialSubstrCond (url : String) : Bool :=
  containsSubstr (jsToLower url) "twitter.com" ||
  containsSubstr (jsToLower url) "facebook.com" ||
  containsSubstr (jsToLower url) "linkedin.com"

/-- Claim C8 counterexample: for "https://github.community/forum" the code
returns "documentation" (the URL *contains* "github.com" as a substring),
while the claim's rule — hostname *equal* to github.com, tests restricted
to hostname/path — yields "article". -/
theorem detectContentType_equality_counterexample :
    detectContentType "https://github.community/forum" = "documentation" ∧
    claimContentTypeRule "https://github.community/forum" = some "article" ∧
    ("documentation" : String) ≠ "article" := by
  refine ⟨by decide, by decide, by decide⟩

/-- Claim C8 amended: the inferred type is "documentation" iff the whole
lowercased URL string contains "docs.", "/docs/", "/documentation/",
"github.com" or "stackoverflow.com" as a substring (containment, not
hostname equality); otherwise "social" iff it contains "twitter.com",
"facebook.com" or "linkedin.com"; otherwise "article". -/
theorem detectContentType_substring_cases (url : String) :
    (detectContentType url = "documentation" ↔
      (docsSubstrCond url || hubSubstrCond url) = true) ∧
    (detectContentType url = "social" ↔
      ((docsSubstrCond url || hubSubstrCond url) = false ∧ socialSubstrCond url = true)) ∧
    (detectContentType url = "article" ↔
      ((docsSubstrCond url || hubSubstrCond url) = false ∧ socialSubstrCond url = false)) := by
  have hd : detectContentType url =
      (if docsSubstrCond url then "documentation"
       else if hubSubstrCond url then "documentation"
       else if socialSubstrCond url then "social"
       else "article") := rfl
  rw [hd]
  rcases Bool.eq_false_or_eq_true (docsSubstrCond url) with h1 | h1 <;>
  rcases Bool.eq_false_or_eq_true (hubSubstrCond url) with h2 | h2 <;>
  rcases Bool.eq_false_or_eq_true (socialSubstrCond url) with h3 | h3 <;>
  simp only [h1, h2, h3] <;> decide

/-- Witness for C8 (amended): a documentation URL and an article URL. -/
theorem detectContentType_substring_cases_witness :
    detectContentType "https://docs.python.org/3/" = "documentation" ∧
    detectContentType "https://example.org/news" = "article" :=
  ⟨(detectContentType_substring_cases "https://docs.python.org/3/").1.mpr (by decide),
   (detectContentType_substring_cases "https://example.org/news").2.2.mpr (by decide)⟩

/-- Claim C5 counterexample: a search call whose arguments lack the required
query field is rejected with an internal-error-class wrap
("Tool execution failed: ..."), not an invalid-params-class error; and a
request with a missing tool name is rejected with an invalid-request-class
error, not a method-not-found-class one. -/
theorem handleCallTool_error_class_counterexample :
    resultCode (handleCallTool (fun _ => "Required")
      { name := some "search_duckduckgo",
        arguments := some (JsonVal.obj [("region", JsonVal.str "us-en")]) }) =
      some McpErrorCode.internalError ∧
    resultCode (handleCallTool (fun _ => "Required")
      { name := none, arguments := none }) = some McpErrorCode.invalidRequest ∧
    McpErrorCode.internalError ≠ McpErrorCode.invalidParams ∧
    McpErrorCode.invalidRequest ≠ McpErrorCode.methodNotFound := by
  refine ⟨rfl, rfl, by decide, by decide⟩

/-- Claim C5 amended: a missing (or empty) tool name yields an
invalid-request-class "Missing request parameters" error; a non-empty name
outside the three registered tools yields a method-not-found-class
"Unknown tool" error; a search call whose arguments fail schema validation
yields an internal-error-class error wrapping the validation failure.  In
every one of these cases the handler produces no dispatch, so no browser or
search work is attempted. -/
theorem handleCallTool_rejects_before_dispatch (renderZod : ZodIssue → String)
    (req : CallRequest) :
    (req.name = none →
      handleCallTool renderZod req =
        Except.error { code := McpErrorCode.invalidRequest,
                       message := "Missing request parameters" }) ∧
    (∀ n, req.name = some n → n ≠ "" → n ∉ registeredToolNames →
      handleCallTool renderZod req =
        Except.error { code := McpErrorCode.methodNotFound,
                       message := "Unknown tool: " ++ n }) ∧
    (∀ issue, req.name = some "search_duckduckgo" →
      parseSearchArgs req.arguments = Except.error issue →
      handleCallTool renderZod req =
        Except.error { code := McpErrorCode.internalError,
                       message := "Tool execution failed: " ++ renderZod issue }) := by
  refine ⟨?_, ?_, ?_⟩
  · intro h
    simp [handleCallTool, h]
  · intro n hn hne hreg
    simp only [registeredToolNames, List.mem_cons, List.not_mem_nil, or_false,
      not_or] at hreg
    obtain ⟨h1, h2, h3⟩ := hreg
    simp [handleCallTool, hn, beq_eq_false_iff_ne.mpr hne,
      beq_eq_false_iff_ne.mpr h1, beq_eq_false_iff_ne.mpr h2,
      beq_eq_false_iff_ne.mpr h3]
  · intro issue hn hparse
    simp [handleCallTool, hn, hparse]

/-- Witness for C5 (amended): an unregistered tool name is rejected as
method-not-found. -/
theorem handleCallTool_rejects_before_dispatch_witness :
    handleCallTool (fun _ => "Required") { name := some "bogus", arguments := none } =
      Except.error { code := McpErrorCode.methodNotFound,
                     message := "Unknown tool: " ++ "bogus" } :=
  (handleCallTool_rejects_before_dispatch (fun _ => "Required")
    { name := some "bogus", arguments := none }).2.1 "bogus" rfl
    (by decide) (by decide)

/-- Claim C7 counterexample: an HTTP 404 response and a null response are
both surfaced to the caller as the same generic "Navigation to <url>
failed" message — the cause-specific messages ("HTTP 404: ...",
"Navigation failed: no response received") are swallowed by the catch-all
wrapper, so these causes are not surfaced with a specific message. -/
theorem safePageNavigation_generic_wrap_counterexample :
    safePageNavigation "https://example.com"
      { gotoError := none, response := some (404, "Not Found"),
        hasSelector := fun _ => false, title := "t", bodyText := "w" } =
      Except.error "Navigation to https://example.com failed" ∧
    safePageNavigation "https://example.com"
      { gotoError := none, response := none,
        hasSelector := fun _ => false, title := "t", bodyText := "w" } =
      Except.error "Navigation to https://example.com failed" ∧
    containsSubstr "Navigation to https://example.com failed" "404" = false ∧
    containsSubstr "Navigation to https://example.com failed" "no response" = false := by
  refine ⟨by decide, by decide, by decide, by decide⟩

/-- Claim C7 amended: the three validation rejection messages propagate
verbatim to the caller; the HTTP-status-≥-400 case, the no-response case,
and any other navigation exception are all wrapped into the generic
"Navigation to <url> failed" error (so the status/no-response causes are
detected with specific internal messages but are not surfaced to the
caller with them). -/
theorem safePageNavigation_error_propagation (url : String) (inp : NavInput) :
    (navTryBody inp = Except.error "Bot protection detected" →
      safePageNavigation url inp = Except.error "Bot protection detected") ∧
    (navTryBody inp = Except.error "Suspicious page title detected" →
      safePageNavigation url inp = Except.error "Suspicious page title detected") ∧
    (navTryBody inp = Except.error "Page contains insufficient content" →
      safePageNavigation url inp = Except.error "Page contains insufficient content") ∧
    (∀ status statusText, inp.gotoError = none →
      inp.response = some (status, statusText) → 400 ≤ status →
      isRecognizedValidationMessage
        ("HTTP " ++ toString status ++ ": " ++ statusText) = false →
      safePageNavigation url inp =
        Except.error ("Navigation to " ++ url ++ " failed")) ∧
    (inp.gotoError = none → inp.response = none →
      safePageNavigation url inp =
        Except.error ("Navigation to " ++ url ++ " failed")) ∧
    (∀ msg, inp.gotoError = some msg → isRecognizedValidationMessage msg = false →
      safePageNavigation url inp =
        Except.error ("Navigation to " ++ url ++ " failed")) := by
  refine ⟨?_, ?_, ?_, ?_, ?_, ?_⟩
  · intro h
    unfold safePageNavigation
    rw [h]
    rfl
  · intro h
    unfold safePageNavigation
    rw [h]
    rfl
  · intro h
    unfold safePageNavigation
    rw [h]
    rfl
  · intro status statusText hg hr hs hnk
    unfold safePageNavigation navTryBody
    rw [hg, hr]
    simp [hs, hnk]
  · intro hg hr
    unfold safePageNavigation navTryBody
    rw [hg, hr]
    rfl
  · intro msg hg hmsg
    unfold safePageNavigation navTryBody
    rw [hg]
    simp [hmsg]

/-- Witness for C7 (amended): the null-response case on a concrete input is
wrapped generically. -/
theorem safePageNavigation_error_propagation_witness :
    safePageNavigation "https://a.b"
      { gotoError := none, response := none, hasSelector := fun _ => false,
        title := "", bodyText := "" } =
      Except.error ("Navigation to " ++ "https://a.b" ++ " failed") :=
  (safePageNavigation_error_propagation "https://a.b"
    { gotoError := none, response := none, hasSelector := fun _ => false,
      title := "", bodyText := "" }).2.2.2.2.1 rfl rfl

/-- The shrink loop is a no-op once the current capture is within the size
ceiling. -/
theorem screenshotLoop_stop (shots : Nat → Shot) (fuel attempts idx : Nat) (cur : Shot)
    (sets : List (Nat × Nat)) (h : ¬ MAX_SCREENSHOT_BYTES < cur.size) :
    screenshotLoop shots fuel attempts idx cur sets = (cur, idx, sets) := by
  cases fuel with
  | zero => rfl
  | succ f => simp [screenshotLoop, h]

/-- One iteration of the shrink loop: resize to the attempt's dimensions and
recapture. -/
theorem screenshotLoop_step (shots : Nat → Shot) (fuel attempts idx : Nat) (cur : Shot)
    (sets : List (Nat × Nat)) (h : MAX_SCREENSHOT_BYTES < cur.size) (ha : attempts < 3) :
    screenshotLoop shots (fuel + 1) attempts idx cur sets =
      screenshotLoop shots fuel (attempts + 1) (idx + 1) (shots idx)
        (sets ++ [(shrinkWidth (attempts + 1), shrinkHeight (attempts + 1))]) := by
  simp [screenshotLoop, h, ha]

/-- The shrink loop with no fuel left returns its state unchanged. -/
theorem screenshotLoop_zero (shots : Nat → Shot) (attempts idx : Nat) (cur : Shot)
    (sets : List (Nat × Nat)) :
    screenshotLoop shots 0 attempts idx cur sets = (cur, idx, sets) := rfl

/-- Shrink attempt 1 width: round(1600 · 0.75) = 1200. -/
theorem shrinkWidth_one : shrinkWidth 1 = 1200 := rfl

/-- Shrink attempt 2 width: round(1600 · 0.5625) = 900. -/
theorem shrinkWidth_two : shrinkWidth 2 = 900 := rfl

/-- Shrink attempt 3 width: round(1600 · 0.421875) = 675, below the 800
minimum and not clamped. -/
theorem shrinkWidth_three : shrinkWidth 3 = 675 := rfl

/-- Shrink attempt 1 height: round(900 · 0.75) = 675, clamped up to 800. -/
theorem shrinkHeight_one : shrinkHeight 1 = 800 := rfl

/-- Shrink attempt 2 height: round(900 · 0.5625) = 506, clamped up to 800. -/
theorem shrinkHeight_two : shrinkHeight 2 = 800 := rfl

/-- Shrink attempt 3 height: round(900 · 0.421875) = 380, clamped up to 800. -/
theorem shrinkHeight_three : shrinkHeight 3 = 800 := rfl

/-- Reducer behavior when the initial capture already fits. -/
theorem takeScreenshot_case0 (shots : Nat → Shot)
    (h0 : ¬ MAX_SCREENSHOT_BYTES < (shots 0).size) :
    takeScreenshotWithSizeLimit shots =
      { result := Except.ok (shots 0).b64, viewportSets := [(1600, 900)], captures := 1 } := by
  unfold takeScreenshotWithSizeLimit
  rw [screenshotLoop_stop shots 3 0 1 (shots 0) [(1600, 900)] h0]
  simp [h0]

/-- Reducer behavior when only the initial capture is oversized. -/
theorem takeScreenshot_case1 (shots : Nat → Shot)
    (h0 : MAX_SCREENSHOT_BYTES < (shots 0).size)
    (h1 : ¬ MAX_SCREENSHOT_BYTES < (shots 1).size) :
    takeScreenshotWithSizeLimit shots =
      { result := Except.ok (shots 1).b64, viewportSets := [(1600, 900), (1200, 800)],
        captures := 2 } := by
  unfold takeScreenshotWithSizeLimit
  rw [screenshotLoop_step shots 2 0 1 (shots 0) [(1600, 900)] h0 (by omega)]
  norm_num [shrinkWidth_one, shrinkHeight_one]
  rw [screenshotLoop_stop shots 2 1 2 (shots 1) [(1600, 900), (1200, 800)] h1]
  simp [h1]

/-- Reducer behavior when the first two captures are oversized and the third
fits. -/
theorem takeScreenshot_case2 (shots : Nat → Shot)
    (h0 : MAX_SCREENSHOT_BYTES < (shots 0).size)
    (h1 : MAX_SCREENSHOT_BYTES < (shots 1).size)
    (h2 : ¬ MAX_SCREENSHOT_BYTES < (shots 2).size) :
    takeScreenshotWithSizeLimit shots =
      { result := Except.ok (shots 2).b64,
        viewportSets := [(1600, 900), (1200, 800), (900, 800)], captures := 3 } := by
  unfold takeScreenshotWithSizeLimit
  rw [screenshotLoop_step shots 2 0 1 (shots 0) [(1600, 900)] h0 (by omega)]
  norm_num [shrinkWidth_one, shrinkHeight_one]
  rw [screenshotLoop_step shots 1 1 2 (shots 1) [(1600, 900), (1200, 800)] h1 (by omega)]
  norm_num [shrinkWidth_two, shrinkHeight_two]
  rw [screenshotLoop_stop shots 1 2 3 (shots 2) [(1600, 900), (1200, 800), (900, 800)] h2]
  simp [h2]

/-- Reducer behavior when the first three captures are oversized and the
fourth fits. -/
theorem takeScreenshot_case3 (shots : Nat → Shot)
    (h0 : MAX_SCREENSHOT_BYTES < (shots 0).size)
    (h1 : MAX_SCREENSHOT_BYTES < (shots 1).size)
    (h2 : MAX_SCREENSHOT_BYTES < (shots 2).size)
    (h3 : ¬ MAX_SCREENSHOT_BYTES < (shots 3).size) :
    takeScreenshotWithSizeLimit shots =
      { result := Except.ok (shots 3).b64,
        viewportSets := [(1600, 900), (1200, 800), (900, 800), (675, 800)],
        captures := 4 } := by
  unfold takeScreenshotWithSizeLimit
  rw [screenshotLoop_step shots 2 0 1 (shots 0) [(1600, 900)] h0 (by omega)]
  norm_num [shrinkWidth_one, shrinkHeight_one]
  rw [screenshotLoop_step shots 1 1 2 (shots 1) [(1600, 900), (1200, 800)] h1 (by omega)]
  norm_num [shrinkWidth_two, shrinkHeight_two]
  rw [screenshotLoop_step shots 0 2 3 (shots 2) [(1600, 900), (1200, 800), (900, 800)] h2
    (by omega)]
  norm_num [shrinkWidth_three, shrinkHeight_three]
  rw [screenshotLoop_zero shots 3 4 (shots 3)
    [(1600, 900), (1200, 800), (900, 800), (675, 800)]]
  simp [h3]

/-- Reducer behavior when all shrink captures are oversized and the final
minimum-viewport capture fits. -/
theorem takeScreenshot_case4 (shots : Nat → Shot)
    (h0 : MAX_SCREENSHOT_BYTES < (shots 0).size)
    (h1 : MAX_SCREENSHOT_BYTES < (shots 1).size)
    (h2 : MAX_SCREENSHOT_BYTES < (shots 2).size)
    (h3 : MAX_SCREENSHOT_BYTES < (shots 3).size)
    (h4 : ¬ MAX_SCREENSHOT_BYTES < (shots 4).size) :
    takeScreenshotWithSizeLimit shots =
      { result := Except.ok (shots 4).b64,
        viewportSets := [(1600, 900), (1200, 800), (900, 800), (675, 800), (800, 800)],
        captures := 5 } := by
  unfold takeScreenshotWithSizeLimit
  rw [screenshotLoop_step shots 2 0 1 (shots 0) [(1600, 900)] h0 (by omega)]
  norm_num [shrinkWidth_one, shrinkHeight_one]
  rw [screenshotLoop_step shots 1 1 2 (shots 1) [(1600, 900), (1200, 800)] h1 (by omega)]
  norm_num [shrinkWidth_two, shrinkHeight_two]
  rw [screenshotLoop_step shots 0 2 3 (shots 2) [(1600, 900), (1200, 800), (900, 800)] h2
    (by omega)]
  norm_num [shrinkWidth_three, shrinkHeight_three]
  rw [screenshotLoop_zero shots 3 4 (shots 3)
    [(1600, 900), (1200, 800), (900, 800), (675, 800)]]
  simp [h3, h4]

/-- Reducer behavior when every capture, including the final
minimum-viewport one, is oversized. -/
theorem takeScreenshot_caseFail (shots : Nat → Shot)
    (h0 : MAX_SCREENSHOT_BYTES < (shots 0).size)
    (h1 : MAX_SCREENSHOT_BYTES < (shots 1).size)
    (h2 : MAX_SCREENSHOT_BYTES < (shots 2).size)
    (h3 : MAX_SCREENSHOT_BYTES < (shots 3).size)
    (h4 : MAX_SCREENSHOT_BYTES < (shots 4).size) :
    takeScreenshotWithSizeLimit shots =
      { result :=
          Except.error "Failed to reduce screenshot to under 5MB even with minimum settings",
        viewportSets := [(1600, 900), (1200, 800), (900, 800), (675, 800), (800, 800)],
        captures := 5 } := by
  unfold takeScreenshotWithSizeLimit
  rw [screenshotLoop_step shots 2 0 1 (shots 0) [(1600, 900)] h0 (by omega)]
  norm_num [shrinkWidth_one, shrinkHeight_one]
  rw [screenshotLoop_step shots 1 1 2 (shots 1) [(1600, 900), (1200, 800)] h1 (by omega)]
  norm_num [shrinkWidth_two, shrinkHeight_two]
  rw [screenshotLoop_step shots 0 2 3 (shots 2) [(1600, 900), (1200, 800), (900, 800)] h2
    (by omega)]
  norm_num [shrinkWidth_three, shrinkHeight_three]
  rw [screenshotLoop_zero shots 3 4 (shots 3)
    [(1600, 900), (1200, 800), (900, 800), (675, 800)]]
  simp [h3, h4]

/-- Claim C6: the reducer returns the base64 rendering of the first capture
whose byte length is at most 5 MiB, performing at most 3 shrink-recapture
iterations after the initial capture and then at most one final capture at
the 800×800 minimum viewport (never more than 5 captures); when the first
two captures are oversized and the third is not, the result is the third
capture and the viewport is resized exactly twice after the initial
1600×900 setting; when even the minimum-viewport capture is oversized the
call fails with "Failed to reduce screenshot to under 5MB even with
minimum settings". -/
theorem takeScreenshotWithSizeLimit_first_passing (shots : Nat → Shot) :
    (MAX_SCREENSHOT_BYTES < (shots 0).size → MAX_SCREENSHOT_BYTES < (shots 1).size →
      (shots 2).size ≤ MAX_SCREENSHOT_BYTES →
      takeScreenshotWithSizeLimit shots =
        { result := Except.ok (shots 2).b64,
          viewportSets := [(1600, 900), (1200, 800), (900, 800)], captures := 3 }) ∧
    ((∀ i, i ≤ 4 → MAX_SCREENSHOT_BYTES < (shots i).size) →
      takeScreenshotWithSizeLimit shots =
        { result :=
            Except.error "Failed to reduce screenshot to under 5MB even with minimum settings",
          viewportSets := [(1600, 900), (1200, 800), (900, 800), (675, 800), (800, 800)],
          captures := 5 }) ∧
    (∀ s, (takeScreenshotWithSizeLimit shots).result = Except.ok s →
      ∃ i, i < (takeScreenshotWithSizeLimit shots).captures ∧ s = (shots i).b64 ∧
        (shots i).size ≤ MAX_SCREENSHOT_BYTES ∧
        ∀ j, j < i → MAX_SCREENSHOT_BYTES < (shots j).size) ∧
    (takeScreenshotWithSizeLimit shots).captures ≤ 5 := by
  refine ⟨?_, ?_, ?_, ?_⟩
  · intro h0 h1 h2
    exact takeScreenshot_case2 shots h0 h1 (Nat.not_lt.mpr h2)
  · intro hall
    exact takeScreenshot_caseFail shots (hall 0 (by omega)) (hall 1 (by omega))
      (hall 2 (by omega)) (hall 3 (by omega)) (hall 4 (by omega))
  · intro s hs
    by_cases h0 : MAX_SCREENSHOT_BYTES < (shots 0).size
    · by_cases h1 : MAX_SCREENSHOT_BYTES < (shots 1).size
      · by_cases h2 : MAX_SCREENSHOT_BYTES < (shots 2).size
        · by_cases h3 : MAX_SCREENSHOT_BYTES < (shots 3).size
          · by_cases h4 : MAX_SCREENSHOT_BYTES < (shots 4).size
            · rw [takeScreenshot_caseFail shots h0 h1 h2 h3 h4] at hs
              simp at hs
            · rw [takeScreenshot_case4 shots h0 h1 h2 h3 h4] at hs ⊢
              simp at hs
              refine ⟨4, by norm_num, hs.symm, Nat.not_lt.mp h4, ?_⟩
              intro j hj
              interval_cases j <;> assumption
          · rw [takeScreenshot_case3 shots h0 h1 h2 h3] at hs ⊢
            simp at hs
            refine ⟨3, by norm_num, hs.symm, Nat.not_lt.mp h3, ?_⟩
            intro j hj
            interval_cases j <;> assumption
        · rw [takeScreenshot_case2 shots h0 h1 h2] at hs ⊢
          simp at hs
          refine ⟨2, by norm_num, hs.symm, Nat.not_lt.mp h2, ?_⟩
          intro j hj
          interval_cases j <;> assumption
      · rw [takeScreenshot_case1 shots h0 h1] at hs ⊢
        simp at hs
        refine ⟨1, by norm_num, hs.symm, Nat.not_lt.mp h1, ?_⟩
        intro j hj
        interval_cases j <;> assumption
    · rw [takeScreenshot_case0 shots h0] at hs ⊢
      simp at hs
      refine ⟨0, by norm_num, hs.symm, Nat.not_lt.mp h0, ?_⟩
      intro j hj
      omega
  · by_cases h0 : MAX_SCREENSHOT_BYTES < (shots 0).size
    · by_cases h1 : MAX_SCREENSHOT_BYTES < (shots 1).size
      · by_cases h2 : MAX_SCREENSHOT_BYTES < (shots 2).size
        · by_cases h3 : MAX_SCREENSHOT_BYTES < (shots 3).size
          · by_cases h4 : MAX_SCREENSHOT_BYTES < (shots 4).size
            · rw [takeScreenshot_caseFail shots h0 h1 h2 h3 h4]
            · rw [takeScreenshot_case4 shots h0 h1 h2 h3 h4]
          · rw [takeScreenshot_case3 shots h0 h1 h2 h3]
            norm_num
        · rw [takeScreenshot_case2 shots h0 h1 h2]
          norm_num
      · rw [takeScreenshot_case1 shots h0 h1]
        norm_num
    · rw [takeScreenshot_case0 shots h0]
      norm_num

/-- Witness for C6: a capture oracle oversized on the first two calls and
small on the third yields the third capture after exactly two shrink
resizes. -/
theorem takeScreenshotWithSizeLimit_first_passing_witness :
    takeScreenshotWithSizeLimit
      (fun i => if i < 2 then { size := 6 * 1024 * 1024, b64 := "big" }
        else { size := 100, b64 := "third" }) =
      { result := Except.ok "third",
        viewportSets := [(1600, 900), (1200, 800), (900, 800)], captures := 3 } :=
  (takeScreenshotWithSizeLimit_first_passing
    (fun i => if i < 2 then { size := 6 * 1024 * 1024, b64 := "big" }
      else { size := 100, b64 := "third" })).1 (by decide) (by decide) (by decide)

/-- Claim C2, evaluated at the failing input (code bug): with every capture
oversized, the three shrink iterations set the viewport to 1200×800,
900×800 and 675×800 — the widths are round(1600 · 0.75^k) with no
clamping, so at k = 3 the width 675 drops below the 800 minimum (the
width-clamping statement sits inside a comment in the source), while the
heights are clamped to 800 as the claim describes. -/
theorem takeScreenshotWithSizeLimit_width_not_clamped :
    takeScreenshotWithSizeLimit (fun _ => { size := 5 * 1024 * 1024 + 1, b64 := "big" }) =
      { result :=
          Except.error "Failed to reduce screenshot to under 5MB even with minimum settings",
        viewportSets := [(1600, 900), (1200, 800), (900, 800), (675, 800), (800, 800)],
        captures := 5 } ∧
    shrinkWidth 3 = 675 ∧ shrinkHeight 3 = 800 ∧ 675 < 800 := by
  refine ⟨by decide, rfl, rfl, by decide⟩
